import Mathlib

/-!
Verification of `TerminalChatWidget`
(`src/vs/workbench/contrib/terminalContrib/chat/browser/terminalChatWidget.ts`).

The widget is a DOM composition class: its observable state is the class
lists and text content of its two DOM nodes, the two context-key booleans,
the nested inline-chat widget's input value and progress flag, the lazily
created response code-editor widget, and the pending text-model resolution
promise started by `renderTerminalCommand`. We embed that state as a record
and every public method as a pure state transformer, translated line by
line from the source. The asynchronous `then` continuation of
`_getTextModel` is embedded as a separate step (`renderContinuation` /
`resolvePending`) so that its late firing can be scheduled anywhere in an
operation sequence.
-/

namespace TerminalChatWidget

/-- A DOM `classList`: an ordered list of class names without duplicates
being relevant; `add` appends when absent, `remove` deletes all copies. -/
def classListAdd (cs : List String) (c : String) : List String :=
  if c ∈ cs then cs else cs ++ [c]

def classListRemove (cs : List String) (c : String) : List String :=
  cs.filter (fun x => x != c)

/-- `URI.from({ path, scheme, fragment })` as used at line 89 of the source. -/
structure URI where
  scheme : String
  path : String
  fragment : String
deriving DecidableEq, Repr

/-- An `ITextModel` as far as this widget observes it: its resource URI,
its current text value, and whether it has been disposed. -/
structure TextModel where
  uri : URI
  value : String
  disposed : Bool
deriving DecidableEq, Repr

/-- The response `CodeEditorWidget`. `viewerId` is a ghost creation index
used to express viewer identity; `model` is the attached text model
(`setModel`), `layoutDim` the last `layout` dimension. -/
structure ResponseWidgetState where
  viewerId : Nat
  model : Option TextModel
  layoutDim : Option (Nat × Nat)
deriving DecidableEq, Repr

/-- The discriminated `IChatProgress` union: the widget only reads `kind`. -/
structure IChatProgress where
  kind : String
deriving DecidableEq, Repr

/-- The observable state of one `TerminalChatWidget` instance, together
with the model-service registry it talks to.

`inlineChatFocusCalls` / `instanceFocusCalls` are ghost counters recording
calls to `_inlineChatWidget.focus()` and `_instance.focus()`;
`createdViewerCount` is a ghost counter of `CodeEditorWidget` instances
created for the response element; `accessibilityResponses` records the
`acceptResponse` notifications; `pendingResolve` holds the resource URI of
the not-yet-resolved `_getTextModel` promise, if one is in flight. -/
structure State where
  instanceId : Nat
  widgetContainerClasses : List String
  responseElementClasses : List String
  responseElementText : String
  chatWidgetFocused : Bool
  chatWidgetVisible : Bool
  inlineChatValue : String
  inlineChatPlaceholder : String
  inlineChatInfo : String
  inlineChatProgress : Bool
  inlineChatLayoutDim : Option (Nat × Nat)
  inlineChatFocusCalls : Nat
  instanceFocusCalls : Nat
  responseWidget : Option ResponseWidgetState
  createdViewerCount : Nat
  pendingResolve : Option URI
  models : List TextModel
  accessibilityResponses : List (String × Nat)
deriving DecidableEq, Repr

/-- The constructor (lines 35-83): containers created with their base
classes, no `hide` class yet, placeholder and info banner set, no response
widget, nothing pending. `models` is the initial content of the injected
model service registry. -/
def construct (instanceId : Nat) (models : List TextModel) : State :=
  { instanceId := instanceId
  , widgetContainerClasses := ["terminal-inline-chat"]
  , responseElementClasses := ["terminal-inline-chat-response"]
  , responseElementText := ""
  , chatWidgetFocused := false
  , chatWidgetVisible := false
  , inlineChatValue := ""
  , inlineChatPlaceholder := "Ask how to do something in the terminal"
  , inlineChatInfo := "AI-generated code may be incorrect"
  , inlineChatProgress := false
  , inlineChatLayoutDim := none
  , inlineChatFocusCalls := 0
  , instanceFocusCalls := 0
  , responseWidget := none
  , createdViewerCount := 0
  , pendingResolve := none
  , models := models
  , accessibilityResponses := [] }

/-- The URI synthesized at line 89:
`URI.from({ path: terminal-inline-chat-id, scheme: terminal-inline-chat,
fragment: codeBlock })`. -/
def chatUri (instanceId : Nat) (codeBlock : String) : URI :=
  { scheme := "terminal-inline-chat"
  , path := "terminal-inline-chat-" ++ toString instanceId
  , fragment := codeBlock }

/-- `CodeEditorWidget.setValue`: sets the attached model's value; a no-op
when no model is attached. -/
def editorSetValue (w : ResponseWidgetState) (v : String) : ResponseWidgetState :=
  match w.model with
  | some m => { w with model := some ({ m with value := v }) }
  | none => w

/-- `_getTextModel` (lines 108-114): return the registry's model for the
resource when present and not disposed, otherwise create one seeded with
`resource.fragment`. Returns the model and the updated registry. -/
def getTextModel (models : List TextModel) (resource : URI) :
    TextModel × List TextModel :=
  match models.find? (fun m => m.uri == resource) with
  | some existing =>
      if existing.disposed then
        let m : TextModel := { uri := resource, value := resource.fragment, disposed := false }
        (m, m :: models)
      else
        (existing, models)
  | none =>
      let m : TextModel := { uri := resource, value := resource.fragment, disposed := false }
      (m, m :: models)

/-- The `then` continuation at lines 89-95:
`if (!model || !this._responseWidget) return;` then `setModel` and
`layout(new Dimension(400, 150))`. -/
def renderContinuation (model : Option TextModel) (s : State) : State :=
  match model, s.responseWidget with
  | some m, some w =>
      { s with
        responseWidget := some ({ w with model := some m, layoutDim := some (400, 150) }) }
  | _, _ => s

/-- Fire the pending `_getTextModel` promise, if any: resolve the model
against the current registry and run the continuation. -/
def resolvePending (s : State) : State :=
  match s.pendingResolve with
  | none => s
  | some uri =>
      let r := getTextModel s.models uri
      renderContinuation (some r.1)
        { s with models := r.2, pendingResolve := none }

/-- `renderTerminalCommand` (lines 84-99). -/
def renderTerminalCommand (codeBlock : String) (requestId : Nat) (s : State) : State :=
  let s1 : State :=
    { s with
      responseElementClasses :=
        classListRemove (classListRemove s.responseElementClasses "message") "hide"
    , accessibilityResponses := (codeBlock, requestId) :: s.accessibilityResponses }
  match s1.responseWidget with
  | none =>
      { s1 with
        responseWidget := some ({ viewerId := s1.createdViewerCount, model := none, layoutDim := none })
      , createdViewerCount := s1.createdViewerCount + 1
      , pendingResolve := some (chatUri s1.instanceId codeBlock) }
  | some w =>
      { s1 with responseWidget := some (editorSetValue w codeBlock) }

/-- `renderMessage` (lines 101-106). -/
def renderMessage (message : String) (requestId : Nat) (s : State) : State :=
  { s with
    responseElementClasses :=
      classListAdd (classListRemove s.responseElementClasses "hide") "message"
  , accessibilityResponses := (message, requestId) :: s.accessibilityResponses
  , responseElementText := message }

/-- `reveal` (lines 115-122). -/
def reveal (s : State) : State :=
  { s with
    inlineChatLayoutDim := some (400, 150)
  , widgetContainerClasses := classListRemove s.widgetContainerClasses "hide"
  , chatWidgetFocused := true
  , chatWidgetVisible := true
  , inlineChatFocusCalls := s.inlineChatFocusCalls + 1 }

/-- `hide` (lines 123-129). -/
def hide (s : State) : State :=
  { s with
    responseElementClasses := classListAdd s.responseElementClasses "hide"
  , widgetContainerClasses := classListAdd s.widgetContainerClasses "hide"
  , chatWidgetFocused := false
  , chatWidgetVisible := false
  , instanceFocusCalls := s.instanceFocusCalls + 1 }

/-- `cancel` (lines 130-133): only clears the inline chat value. -/
def cancel (s : State) : State :=
  { s with inlineChatValue := "" }

/-- `input` (lines 134-136). -/
def input (s : State) : String :=
  s.inlineChatValue

/-- `setValue` (lines 137-142): `value ?? empty`, and when `!value`
(absent or empty string, both falsy in JS) also hide the response
element. -/
def setValue (value : Option String) (s : State) : State :=
  let s1 : State := { s with inlineChatValue := value.getD "" }
  if value.getD "" == "" then
    { s1 with responseElementClasses := classListAdd s1.responseElementClasses "hide" }
  else
    s1

/-- `updateProgress` (lines 143-145). -/
def updateProgress (progress : Option IChatProgress) (s : State) : State :=
  { s with
    inlineChatProgress :=
      (match progress with
       | some p => p.kind == "content" || p.kind == "markdownContent"
       | none => false) }

/-- `layout` (lines 146-148): a commented-out body, hence a no-op. -/
def layout (_width : Nat) (s : State) : State :=
  s

/-- Every public operation of the widget, plus the firing of the pending
asynchronous continuation (`resolveOp`). -/
inductive WidgetOp where
  | renderTerminalCommandOp (codeBlock : String) (requestId : Nat)
  | renderMessageOp (message : String) (requestId : Nat)
  | revealOp
  | hideOp
  | cancelOp
  | setValueOp (value : Option String)
  | updateProgressOp (progress : Option IChatProgress)
  | layoutOp (width : Nat)
  | resolveOp
deriving DecidableEq, Repr

def applyOp (op : WidgetOp) (s : State) : State :=
  match op with
  | .renderTerminalCommandOp cb rid => renderTerminalCommand cb rid s
  | .renderMessageOp m rid => renderMessage m rid s
  | .revealOp => reveal s
  | .hideOp => hide s
  | .cancelOp => cancel s
  | .setValueOp v => setValue v s
  | .updateProgressOp p => updateProgress p s
  | .layoutOp w => layout w s
  | .resolveOp => resolvePending s

def applyOps (ops : List WidgetOp) (s : State) : State :=
  ops.foldl (fun t op => applyOp op t) s

/-- Consistency between the `chatVisible` context key and the `hide` DOM
class on the widget container. -/
def flagsDomConsistent (s : State) : Prop :=
  (s.chatWidgetVisible = true) ↔ "hide" ∉ s.widgetContainerClasses

/-!
### Which context-key service the constructor binds to (lines 44-47)

The constructor creates a scoped context-key service from the container
(line 44) and a child instantiation service carrying it (line 45), but
binds `chatFocused` and `chatVisible` to `this._contextKeyService` — the
injected, unscoped service (lines 46-47). We embed the reference choice
made on each of those lines.
-/

inductive ContextKeyTarget where
  | globalService
  | scopedService
deriving DecidableEq, Repr

structure CtorContextKeyBindings where
  chatFocusedBoundTo : ContextKeyTarget
  chatVisibleBoundTo : ContextKeyTarget
  scopedInstantiationUses : ContextKeyTarget
deriving DecidableEq, Repr

/-- Lines 44-47 of the constructor: `chatFocused.bindTo(this._contextKeyService)`
and `chatVisible.bindTo(this._contextKeyService)` use the injected global
service, while the child instantiation service is built over the scoped
one. -/
def constructorBindings : CtorContextKeyBindings :=
  { chatFocusedBoundTo := .globalService
  , chatVisibleBoundTo := .globalService
  , scopedInstantiationUses := .scopedService }

/-! ### Helper lemmas on class lists -/

theorem mem_classListAdd_self (cs : List String) (c : String) :
    c ∈ classListAdd cs c := by
  unfold classListAdd
  split
  · assumption
  · exact List.mem_append_right _ (List.mem_singleton.mpr rfl)

theorem not_mem_classListRemove_self (cs : List String) (c : String) :
    c ∉ classListRemove cs c := by
  intro h
  have h2 := (List.mem_filter.mp h).2
  simp at h2

/-- `_getTextModel` always hands the continuation a model whose resource
URI is the requested one: an existing registry hit is found by URI
equality, and a freshly created model is created at the requested URI. -/
theorem getTextModel_uri (models : List TextModel) (r : URI) :
    (getTextModel models r).1.uri = r := by
  unfold getTextModel
  split
  · next existing hf =>
      have hp := List.find?_some hf
      rw [beq_iff_eq] at hp
      split
      · rfl
      · exact hp
  · rfl

end TerminalChatWidget

namespace TerminalChatWidget

/-- Claim C5: for every string `v`, `input` returns `v` after
`setValue (some v)`; calling `setValue` with no argument or with the empty
string additionally hides the response container and leaves `input`
returning the empty string. -/
theorem setValue_input_spec (s : State) (v : String) :
    input (setValue (some v) s) = v ∧
    input (setValue none s) = "" ∧
    "hide" ∈ (setValue none s).responseElementClasses ∧
    input (setValue (some "") s) = "" ∧
    "hide" ∈ (setValue (some "") s).responseElementClasses := by
  refine ⟨?_, ?_, ?_, ?_, ?_⟩
  · by_cases hv : v = ""
    · simp [setValue, input, hv]
    · simp [setValue, input, hv]
  · simp [setValue, input]
  · simp only [setValue]
    simp only [Option.getD]
    simp [mem_classListAdd_self]
  · simp [setValue, input]
  · simp only [setValue]
    simp only [Option.getD]
    simp [mem_classListAdd_self]

/-- Claim C6: after `renderMessage m id` the response element's text
content equals `m`, its class list carries the `message` mode flag, and
the inline-chat input value is unchanged. -/
theorem renderMessage_spec (s : State) (m : String) (rid : Nat) :
    (renderMessage m rid s).responseElementText = m ∧
    "message" ∈ (renderMessage m rid s).responseElementClasses ∧
    input (renderMessage m rid s) = input s := by
  refine ⟨rfl, ?_, rfl⟩
  simp [renderMessage, mem_classListAdd_self]

/-- Claim C7: `updateProgress` forwards `true` to the inline-chat
sub-widget exactly when the supplied progress object's `kind`
discriminator is `content` or `markdownContent`; any other discriminator,
or an absent progress object, forwards `false`. -/
theorem updateProgress_spec (s : State) (p : Option IChatProgress) :
    (updateProgress p s).inlineChatProgress = true ↔
      ∃ pr, p = some pr ∧ (pr.kind = "content" ∨ pr.kind = "markdownContent") := by
  cases p with
  | none => simp [updateProgress]
  | some pr =>
      simp [updateProgress, Bool.or_eq_true, beq_iff_eq]

/-- Claim C8: `cancel` clears the inline-chat input value and changes
nothing else: every other state field — visibility flags, DOM classes,
response widget, pending asynchronous resolution, registries and ghost
counters — is untouched. -/
theorem cancel_frame_spec (s : State) :
    input (cancel s) = "" ∧
    (cancel s).instanceId = s.instanceId ∧
    (cancel s).widgetContainerClasses = s.widgetContainerClasses ∧
    (cancel s).responseElementClasses = s.responseElementClasses ∧
    (cancel s).responseElementText = s.responseElementText ∧
    (cancel s).chatWidgetFocused = s.chatWidgetFocused ∧
    (cancel s).chatWidgetVisible = s.chatWidgetVisible ∧
    (cancel s).inlineChatPlaceholder = s.inlineChatPlaceholder ∧
    (cancel s).inlineChatInfo = s.inlineChatInfo ∧
    (cancel s).inlineChatProgress = s.inlineChatProgress ∧
    (cancel s).inlineChatLayoutDim = s.inlineChatLayoutDim ∧
    (cancel s).inlineChatFocusCalls = s.inlineChatFocusCalls ∧
    (cancel s).instanceFocusCalls = s.instanceFocusCalls ∧
    (cancel s).responseWidget = s.responseWidget ∧
    (cancel s).createdViewerCount = s.createdViewerCount ∧
    (cancel s).pendingResolve = s.pendingResolve ∧
    (cancel s).models = s.models ∧
    (cancel s).accessibilityResponses = s.accessibilityResponses :=
  ⟨rfl, rfl, rfl, rfl, rfl, rfl, rfl, rfl, rfl, rfl, rfl, rfl, rfl, rfl,
   rfl, rfl, rfl, rfl⟩

/-- Claim C10: `hide` and `reveal` leave the inline-chat input text
unchanged, so typed input survives hiding and re-revealing the widget. -/
theorem input_unchanged_by_hide_reveal (s : State) :
    input (hide s) = input s ∧ input (reveal s) = input s :=
  ⟨rfl, rfl⟩

/-- Claim C1: from any state, after `reveal` both context-key flags are
true and the widget container is not hidden, and after `hide` both flags
are false and both the widget container and the response container are
hidden; in each case the `chatVisible` flag and the container's DOM
visibility class are consistent. -/
theorem reveal_hide_visibility_spec (s : State) :
    (reveal s).chatWidgetFocused = true ∧
    (reveal s).chatWidgetVisible = true ∧
    "hide" ∉ (reveal s).widgetContainerClasses ∧
    flagsDomConsistent (reveal s) ∧
    (hide s).chatWidgetFocused = false ∧
    (hide s).chatWidgetVisible = false ∧
    "hide" ∈ (hide s).widgetContainerClasses ∧
    "hide" ∈ (hide s).responseElementClasses ∧
    flagsDomConsistent (hide s) := by
  refine ⟨rfl, rfl, ?_, ?_, rfl, rfl, ?_, ?_, ?_⟩
  · exact not_mem_classListRemove_self _ _
  · constructor
    · intro _
      exact not_mem_classListRemove_self _ _
    · intro _
      rfl
  · exact mem_classListAdd_self _ _
  · exact mem_classListAdd_self _ _
  · constructor
    · intro hfalse
      exact absurd hfalse (by simp [hide])
    · intro hmem
      exact absurd (mem_classListAdd_self s.widgetContainerClasses "hide") hmem

/-- Claim C3: the document-resolution continuation performs no state
mutation when it fires after the response-widget reference is gone or
with a null model: it returns the state unchanged (and, being a total
function, throws nothing). -/
theorem renderContinuation_dropped (s : State) (model : Option TextModel)
    (h : model = none ∨ s.responseWidget = none) :
    renderContinuation model s = s := by
  unfold renderContinuation
  split
  · rcases h with h | h <;> simp_all
  · rfl

/-- Witness for C3 at a concrete state: the continuation resolving with a
null model on the freshly constructed widget changes nothing. -/
theorem renderContinuation_dropped_witness :
    ((none : Option TextModel) = none ∨ (construct 1 []).responseWidget = none) ∧
    renderContinuation none (construct 1 []) = construct 1 [] :=
  ⟨Or.inl rfl, renderContinuation_dropped (construct 1 []) none (Or.inl rfl)⟩

/-- Counterexample for C4: in the constructor as written, the two
context keys are NOT bound to the container-scoped context-key service. -/
theorem contextKeys_scoped_refuted :
    ¬ (constructorBindings.chatFocusedBoundTo = ContextKeyTarget.scopedService ∧
       constructorBindings.chatVisibleBoundTo = ContextKeyTarget.scopedService) := by
  decide

/-- Amended C4: the two context keys are bound to the injected global
context-key service, while the container-scoped service created in the
constructor is used only for the child instantiation service handed to
the nested widgets. -/
theorem contextKeys_bound_to_global_service :
    constructorBindings.chatFocusedBoundTo = ContextKeyTarget.globalService ∧
    constructorBindings.chatVisibleBoundTo = ContextKeyTarget.globalService ∧
    constructorBindings.scopedInstantiationUses = ContextKeyTarget.scopedService := by
  decide

/-- Claim C2: when no response viewer exists, `renderTerminalCommand`
creates exactly one viewer and starts resolution of a document whose URI
path is derived from the owning terminal's instance id; once the promise
resolves the viewer carries a model at that URI, and a second
`renderTerminalCommand` reuses the same viewer (same identity, no new
creation) and replaces its text content with the new code block. -/
theorem renderTerminalCommand_create_then_reuse
    (s : State) (cb1 cb2 : String) (r1 r2 : Nat)
    (h : s.responseWidget = none) :
    ∃ m : TextModel,
      (renderTerminalCommand cb1 r1 s).createdViewerCount = s.createdViewerCount + 1 ∧
      (renderTerminalCommand cb1 r1 s).responseWidget
        = some ({ viewerId := s.createdViewerCount, model := none, layoutDim := none }) ∧
      (renderTerminalCommand cb1 r1 s).pendingResolve = some (chatUri s.instanceId cb1) ∧
      (chatUri s.instanceId cb1).path = "terminal-inline-chat-" ++ toString s.instanceId ∧
      (resolvePending (renderTerminalCommand cb1 r1 s)).responseWidget
        = some ({ viewerId := s.createdViewerCount, model := some m
                , layoutDim := some (400, 150) }) ∧
      m.uri = chatUri s.instanceId cb1 ∧
      (renderTerminalCommand cb2 r2 (resolvePending (renderTerminalCommand cb1 r1 s))).responseWidget
        = some ({ viewerId := s.createdViewerCount, model := some ({ m with value := cb2 })
                , layoutDim := some (400, 150) }) ∧
      (renderTerminalCommand cb2 r2 (resolvePending (renderTerminalCommand cb1 r1 s))).createdViewerCount
        = s.createdViewerCount + 1 := by
  refine ⟨(getTextModel s.models (chatUri s.instanceId cb1)).1,
    ?_, ?_, ?_, rfl, ?_, getTextModel_uri _ _, ?_, ?_⟩ <;>
  simp [renderTerminalCommand, resolvePending, renderContinuation, editorSetValue, h]

/-- Witness for C2 on the freshly constructed widget for terminal
instance 1 with an empty model registry. -/
theorem renderTerminalCommand_create_then_reuse_witness :
    ∃ m : TextModel,
      (renderTerminalCommand "echo hi" 1 (construct 1 [])).createdViewerCount
        = (construct 1 []).createdViewerCount + 1 ∧
      (renderTerminalCommand "echo hi" 1 (construct 1 [])).responseWidget
        = some ({ viewerId := (construct 1 []).createdViewerCount, model := none
                , layoutDim := none }) ∧
      (renderTerminalCommand "echo hi" 1 (construct 1 [])).pendingResolve
        = some (chatUri (construct 1 []).instanceId "echo hi") ∧
      (chatUri (construct 1 []).instanceId "echo hi").path
        = "terminal-inline-chat-" ++ toString (construct 1 []).instanceId ∧
      (resolvePending (renderTerminalCommand "echo hi" 1 (construct 1 []))).responseWidget
        = some ({ viewerId := (construct 1 []).createdViewerCount, model := some m
                , layoutDim := some (400, 150) }) ∧
      m.uri = chatUri (construct 1 []).instanceId "echo hi" ∧
      (renderTerminalCommand "echo bye" 2
        (resolvePending (renderTerminalCommand "echo hi" 1 (construct 1 [])))).responseWidget
        = some ({ viewerId := (construct 1 []).createdViewerCount
                , model := some ({ m with value := "echo bye" })
                , layoutDim := some (400, 150) }) ∧
      (renderTerminalCommand "echo bye" 2
        (resolvePending (renderTerminalCommand "echo hi" 1 (construct 1 [])))).createdViewerCount
        = (construct 1 []).createdViewerCount + 1 :=
  renderTerminalCommand_create_then_reuse (construct 1 []) "echo hi" "echo bye" 1 2 rfl

/-- Single-step form of the viewer-persistence invariant: no operation —
public method or firing of the pending continuation — removes or replaces
an existing response viewer; its identity is preserved. -/
theorem applyOp_preserves_responseWidget (op : WidgetOp) (s : State)
    (w : ResponseWidgetState) (h : s.responseWidget = some w) :
    ∃ w2, (applyOp op s).responseWidget = some w2 ∧ w2.viewerId = w.viewerId := by
  cases op with
  | renderTerminalCommandOp cb rid =>
      refine ⟨editorSetValue w cb, ?_, ?_⟩
      · simp [applyOp, renderTerminalCommand, h]
      · cases hm : w.model <;> simp [editorSetValue, hm]
  | renderMessageOp m rid => exact ⟨w, by simp [applyOp, renderMessage, h], rfl⟩
  | revealOp => exact ⟨w, by simp [applyOp, reveal, h], rfl⟩
  | hideOp => exact ⟨w, by simp [applyOp, hide, h], rfl⟩
  | cancelOp => exact ⟨w, by simp [applyOp, cancel, h], rfl⟩
  | setValueOp v =>
      refine ⟨w, ?_, rfl⟩
      simp only [applyOp, setValue]
      split <;> simp [h]
  | updateProgressOp p => exact ⟨w, by simp [applyOp, updateProgress, h], rfl⟩
  | layoutOp wd => exact ⟨w, by simp [applyOp, layout, h], rfl⟩
  | resolveOp =>
      cases hp : s.pendingResolve with
      | none => exact ⟨w, by simp [applyOp, resolvePending, hp, h], rfl⟩
      | some uri =>
          refine ⟨{ w with model := some (getTextModel s.models uri).1, layoutDim := some (400, 150) }, ?_, rfl⟩
          simp [applyOp, resolvePending, hp, renderContinuation, h]

/-- Claim C9: along every sequence of widget operations, once the
response viewer exists it stays present with the same identity for the
rest of the widget's life; later operations only replace its content. -/
theorem responseWidget_persistent (ops : List WidgetOp) (s : State)
    (w : ResponseWidgetState) (h : s.responseWidget = some w) :
    ∃ w2, (applyOps ops s).responseWidget = some w2 ∧ w2.viewerId = w.viewerId := by
  induction ops generalizing s w with
  | nil => exact ⟨w, h, rfl⟩
  | cons op rest ih =>
      obtain ⟨w1, hw1, hid1⟩ := applyOp_preserves_responseWidget op s w h
      obtain ⟨w2, hw2, hid2⟩ := ih (applyOp op s) w1 hw1
      exact ⟨w2, by simpa [applyOps] using hw2, hid2.trans hid1⟩

/-- Witness for C9: a concrete run — create the viewer, then hide,
reveal, fire the continuation, cancel and render again — along which the
viewer created first (identity 0) persists. -/
theorem responseWidget_persistent_witness :
    ∃ w2, (applyOps [WidgetOp.hideOp, WidgetOp.revealOp, WidgetOp.resolveOp,
                     WidgetOp.cancelOp, WidgetOp.renderTerminalCommandOp "echo bye" 2]
            (renderTerminalCommand "echo hi" 1 (construct 1 []))).responseWidget = some w2 ∧
      w2.viewerId = ({ viewerId := 0, model := none, layoutDim := none } : ResponseWidgetState).viewerId :=
  responseWidget_persistent _ _ _ rfl

end TerminalChatWidget
